import Mathlib

/-!
Shallow embedding of the GLSL shader cache of the weston GL renderer
(`src/clients/simple-color-management-image.c`, second document in the file:
`gl_shader_texture_variant_to_string`, `compile_shader`,
`create_shader_description_string`, `create_shader_config_string`,
`gl_shader_create`, `gl_shader_destroy`, `gl_shader_requirements_cmp`,
`gl_shader_scope_new_subscription`).

The GL driver (glCreateShader, glCompileShader, glCreateProgram,
glLinkProgram, glDeleteShader, glDeleteProgram, glGetUniformLocation) is an
external collaborator; it is modelled as an explicit state `GLState` plus an
oracle `GLOracle` deciding compile/link outcomes and diagnostic texts, so that
resource accounting and call counts are observable.
-/

set_option maxHeartbeats 1000000

/-- `enum gl_shader_texture_variant` (nine texture-sampling variants). -/
inductive gl_shader_texture_variant where
  | SHADER_VARIANT_NONE
  | SHADER_VARIANT_RGBX
  | SHADER_VARIANT_RGBA
  | SHADER_VARIANT_Y_U_V
  | SHADER_VARIANT_Y_UV
  | SHADER_VARIANT_Y_XUXV
  | SHADER_VARIANT_XYUV
  | SHADER_VARIANT_SOLID
  | SHADER_VARIANT_EXT
deriving DecidableEq, Fintype, Repr

open gl_shader_texture_variant

/-- `gl_shader_texture_variant_to_string`: the CASERET switch. The source
returns the C identifier of each enum constant; the last constant is named
`SHADER_VARIANT_EXTERNAL` in C (shortened to `SHADER_VARIANT_EXT` as a Lean
constructor name), and the function returns the full C spelling for it. -/
def gl_shader_texture_variant_to_string : gl_shader_texture_variant → String
  | SHADER_VARIANT_NONE => "SHADER_VARIANT_NONE"
  | SHADER_VARIANT_RGBX => "SHADER_VARIANT_RGBX"
  | SHADER_VARIANT_RGBA => "SHADER_VARIANT_RGBA"
  | SHADER_VARIANT_Y_U_V => "SHADER_VARIANT_Y_U_V"
  | SHADER_VARIANT_Y_UV => "SHADER_VARIANT_Y_UV"
  | SHADER_VARIANT_Y_XUXV => "SHADER_VARIANT_Y_XUXV"
  | SHADER_VARIANT_XYUV => "SHADER_VARIANT_XYUV"
  | SHADER_VARIANT_SOLID => "SHADER_VARIANT_SOLID"
  | SHADER_VARIANT_EXT => "SHADER_VARIANT_EXTERNAL"

/-- `struct gl_shader_requirements`: the cache key.  In C the struct holds the
variant and the `green_tint` flag; `zalloc`/whole-struct assignment keep any
padding zeroed, so `memcmp` compares exactly the two fields. -/
structure gl_shader_requirements where
  variant : gl_shader_texture_variant
  green_tint : Bool
deriving DecidableEq, Fintype, Repr

/-- Position of each enum constant in declaration order (its C integer
value), used to model the byte image `memcmp` sees. -/
def variant_index : gl_shader_texture_variant → Nat
  | SHADER_VARIANT_NONE => 0
  | SHADER_VARIANT_RGBX => 1
  | SHADER_VARIANT_RGBA => 2
  | SHADER_VARIANT_Y_U_V => 3
  | SHADER_VARIANT_Y_UV => 4
  | SHADER_VARIANT_Y_XUXV => 5
  | SHADER_VARIANT_XYUV => 6
  | SHADER_VARIANT_SOLID => 7
  | SHADER_VARIANT_EXT => 8

/-- The byte image of a `gl_shader_requirements` value as `memcmp` scans it:
the enum value followed by the boolean, padding zeroed. -/
def requirements_bytes (r : gl_shader_requirements) : List Nat :=
  [variant_index r.variant, cond r.green_tint 1 0]

/-- `memcmp` over equal-length byte sequences: sign of the first differing
byte pair, `0` when all bytes agree. -/
def memcmp_bytes : List Nat → List Nat → Int
  | a :: as, b :: bs =>
      if a < b then -1 else if b < a then 1 else memcmp_bytes as bs
  | _, _ => 0

/-- `gl_shader_requirements_cmp`: `memcmp(a, b, sizeof(*a))`. -/
def gl_shader_requirements_cmp (a b : gl_shader_requirements) : Int :=
  memcmp_bytes (requirements_bytes a) (requirements_bytes b)

/-- `create_shader_description_string`: `asprintf("%s %cgreen", ...)` with
`+` for a set green tint and `-` otherwise.  Allocation failure of `asprintf`
(out of memory) is outside the model. -/
def create_shader_description_string (req : gl_shader_requirements) : String :=
  gl_shader_texture_variant_to_string req.variant ++ " "
    ++ (cond req.green_tint "+" "-") ++ "green"

/-- `create_shader_config_string`: the generated `#define` block, one
`DEF_GREEN_TINT` line and one `DEF_VARIANT` line.  Allocation failure of
`asprintf` is outside the model. -/
def create_shader_config_string (req : gl_shader_requirements) : String :=
  "#define DEF_GREEN_TINT " ++ (cond req.green_tint "true" "false") ++ "\n"
    ++ "#define DEF_VARIANT "
    ++ gl_shader_texture_variant_to_string req.variant ++ "\n"

/-- The two GLES shader stages used by the cache. -/
inductive shader_stage where
  | vertex
  | fragment
deriving DecidableEq, Repr

/-- `GL_NONE`, the failure return of `compile_shader`. -/
def GL_NONE : Nat := 0

/-- Observable state of the mock GL driver.  Shader and program objects are
abstract positive integer names; `liveShaders`/`livePrograms` are the objects
created and not yet deleted; `submissions` records every `glShaderSource`
call (stage and source-string array); `compileCount` counts `glCompileShader`
calls; `shaderDeleteLog` records every `glDeleteShader` call in order;
`programDeleteCount` counts `glDeleteProgram` calls; `log` collects
`weston_log` failure diagnostics. -/
structure GLState where
  nextShaderId : Nat
  nextProgramId : Nat
  liveShaders : List Nat
  livePrograms : List Nat
  submissions : List (shader_stage × List String)
  compileCount : Nat
  shaderDeleteLog : List Nat
  programDeleteCount : Nat
  log : List String
deriving DecidableEq, Repr

/-- A fresh driver state: no objects yet, names start at 1 (`0` is
`GL_NONE`). -/
def GLState.init : GLState :=
  { nextShaderId := 1, nextProgramId := 1, liveShaders := [],
    livePrograms := [], submissions := [], compileCount := 0,
    shaderDeleteLog := [], programDeleteCount := 0, log := [] }

/-- Driver behaviour oracle: compile/link outcomes and the diagnostic texts
`glGetShaderInfoLog`/`glGetProgramInfoLog` would return, plus
`glGetUniformLocation` results. -/
structure GLOracle where
  compileOk : shader_stage → List String → Bool
  infoLog : shader_stage → List String → String
  linkOk : Bool
  linkLog : String
  uniformLoc : Nat → String → Int

/-- `glCreateShader`: returns a fresh shader object name and registers it
live. -/
def glCreateShader (st : GLState) : Nat × GLState :=
  (st.nextShaderId,
   { st with nextShaderId := st.nextShaderId + 1,
             liveShaders := st.liveShaders ++ [st.nextShaderId] })

/-- `glDeleteShader`: removes the object from the live set and records the
deletion. -/
def glDeleteShader (s : Nat) (st : GLState) : GLState :=
  { st with liveShaders := st.liveShaders.erase s,
            shaderDeleteLog := st.shaderDeleteLog ++ [s] }

/-- `glCreateProgram`: returns a fresh program object name and registers it
live. -/
def glCreateProgram (st : GLState) : Nat × GLState :=
  (st.nextProgramId,
   { st with nextProgramId := st.nextProgramId + 1,
             livePrograms := st.livePrograms ++ [st.nextProgramId] })

/-- `glDeleteProgram`: removes the program from the live set and counts the
deletion. -/
def glDeleteProgram (p : Nat) (st : GLState) : GLState :=
  { st with livePrograms := st.livePrograms.erase p,
            programDeleteCount := st.programDeleteCount + 1 }

/-- `compile_shader(type, count, sources)`: creates a shader object, submits
the sources (`glShaderSource`), compiles, and on a failed compile status logs
the driver diagnostic and returns `GL_NONE`.  Note that the C function does
NOT delete the shader object it created when compilation fails; the model
keeps that object in `liveShaders`.  The numbered source dump the C code also
logs on failure (`dump_program_with_line_numbers`) is elided from `log`. -/
def compile_shader (o : GLOracle) (ty : shader_stage) (sources : List String)
    (st : GLState) : Nat × GLState :=
  let r := glCreateShader st
  let st1 := { r.2 with submissions := r.2.submissions ++ [(ty, sources)] }
  let st2 := { st1 with compileCount := st1.compileCount + 1 }
  if o.compileOk ty sources then
    (r.1, st2)
  else
    (GL_NONE,
     { st2 with log := st2.log ++ ["shader info: " ++ o.infoLog ty sources] })

/-- `struct gl_shader`: one cache entry.  `last_used` is a timestamp in
nanoseconds of the presentation clock, written by the renderer when binding;
`zalloc` initialises it to 0. -/
structure gl_shader where
  key : gl_shader_requirements
  vertex_shader : Nat
  fragment_shader : Nat
  program : Nat
  proj_uniform : Int
  tex_uniform0 : Int
  tex_uniform1 : Int
  tex_uniform2 : Int
  alpha_uniform : Int
  color_uniform : Int
  last_used : Int
deriving DecidableEq, Repr

/-- The renderer-owned cache: the `wl_list` of shaders plus the driver
state. -/
structure gl_renderer where
  shader_list : List gl_shader
  gl : GLState
deriving DecidableEq, Repr

/-- `gl_shader_create`: translated statement by statement.  `zalloc` failure
is outside the model; the optional verbose scope print does not touch
modelled state; `glAttachShader`/`glBindAttribLocation` do not affect the
modelled driver state.  `wl_list_insert(&gr->shader_list, ...)` inserts at
the head of the list. -/
def gl_shader_create (o : GLOracle) (vs fs : String)
    (requirements : gl_shader_requirements) (gr : gl_renderer) :
    Option gl_shader × gl_renderer :=
  let rv := compile_shader o shader_stage.vertex [vs] gr.gl
  if rv.1 = GL_NONE then
    -- error_vertex: free(conf); free(shader)
    (none, { gr with gl := rv.2 })
  else
    let conf := create_shader_config_string requirements
    let rf := compile_shader o shader_stage.fragment
                ["#version 100\n", conf, fs] rv.2
    if rf.1 = GL_NONE then
      -- error_fragment: glDeleteShader(shader->vertex_shader)
      (none, { gr with gl := glDeleteShader rv.1 rf.2 })
    else
      let rp := glCreateProgram rf.2
      if o.linkOk then
        -- success: delete both stage objects, resolve uniforms, insert
        let st := glDeleteShader rf.1 (glDeleteShader rv.1 rp.2)
        let sh : gl_shader :=
          { key := requirements, vertex_shader := rv.1,
            fragment_shader := rf.1, program := rp.1,
            proj_uniform := o.uniformLoc rp.1 "proj",
            tex_uniform0 := o.uniformLoc rp.1 "tex",
            tex_uniform1 := o.uniformLoc rp.1 "tex1",
            tex_uniform2 := o.uniformLoc rp.1 "tex2",
            alpha_uniform := o.uniformLoc rp.1 "alpha",
            color_uniform := o.uniformLoc rp.1 "unicolor",
            last_used := 0 }
        (some sh, { shader_list := sh :: gr.shader_list, gl := st })
      else
        -- error_link: glDeleteProgram; glDeleteShader(fragment);
        -- then error_fragment: glDeleteShader(vertex)
        let st0 := { rp.2 with log := rp.2.log ++ ["link info: " ++ o.linkLog] }
        (none,
         { gr with gl := glDeleteShader rv.1 (glDeleteShader rf.1
             (glDeleteProgram rp.1 st0)) })

/-- `gl_shader_destroy`: deletes the linked program, unlinks the entry from
the renderer list, frees it.  The optional verbose scope print does not touch
modelled state. -/
def gl_shader_destroy (gr : gl_renderer) (sh : gl_shader) : gl_renderer :=
  { shader_list := gr.shader_list.erase sh,
    gl := glDeleteProgram sh.program gr.gl }

/-- Modelled from the spec: the lookup wrapper `get_or_create` is not part of
the sampled source (only its callee `gl_shader_create` and the comparison
`gl_shader_requirements_cmp` are).  Per the spec it performs an exact-match
lookup by structural equality against all cached entries, returns the
existing entry unchanged on a hit, and calls the creation routine on a
miss. -/
def gl_renderer_get_program (o : GLOracle) (vs fs : String)
    (req : gl_shader_requirements) (gr : gl_renderer) :
    Option gl_shader × gl_renderer :=
  match gr.shader_list.find?
      (fun sh => gl_shader_requirements_cmp req sh.key == 0) with
  | some sh => (some sh, gr)
  | none => gl_shader_create o vs fs req gr

/-- Modelled from the spec: `destroy_all` is not part of the sampled source;
per the spec it releases every cached program and empties the store, by
applying the source routine `gl_shader_destroy` to each entry in turn
(`wl_list_for_each_safe` style). -/
def destroy_all_go : List gl_shader → gl_renderer → gl_renderer
  | [], gr => gr
  | sh :: tl, gr => destroy_all_go tl (gl_shader_destroy gr sh)

/-- Modelled from the spec: `destroy_all` applied to the cache's own list. -/
def destroy_all (gr : gl_renderer) : gl_renderer :=
  destroy_all_go gr.shader_list gr

/-- `timespec_sub_to_msec(&now, &last_used)` (shared/timespec-util.h, a
collaborator header outside the sampled source): the difference of two
nanosecond clock readings divided down to milliseconds; C `int64` division
truncates toward zero. -/
def timespec_sub_to_msec (a b : Int) : Int :=
  Int.tdiv (a - b) 1000000

/-- The C assignment `int msecs = timespec_sub_to_msec(&now, &last_used)`
narrows the `int64_t` difference to 32-bit `int`; the out-of-range case is
implementation-defined in C and modelled as the two's-complement wrap-around
every target toolchain of the source performs. -/
def int_narrow_32 (x : Int) : Int :=
  (x + 2 ^ 31) % 2 ^ 32 - 2 ^ 31

/-- Fuel-bounded base-2 logarithm: `log2_fuel f n` is the floor of the base-2
logarithm of `n` whenever `2 ≤ n < 2 ^ f` (and 0 for `n ≤ 1`).  Structural in
the fuel so the kernel can evaluate it. -/
def log2_fuel : Nat → Nat → Nat
  | 0, _ => 0
  | fuel + 1, n => if n ≤ 1 then 0 else log2_fuel fuel (n / 2) + 1

/-- Round the fraction `p / q` (with `q > 0`) to the nearest integer, ties to
even. -/
def round_half_even_nat (p q : Nat) : Nat :=
  let t := p / q
  let r := p % q
  if 2 * r < q then t
  else if q < 2 * r then t + 1
  else if t % 2 = 0 then t else t + 1

/-- `(a / b) * 2 ^ k` as an explicit fraction of naturals. -/
def scale_pq (a b : Nat) (k : Int) : Nat × Nat :=
  if 0 ≤ k then (a * 2 ^ k.toNat, b) else (a, b * 2 ^ (-k).toNat)

/-- The number of tenths `printf("%.1f", m / 1000.0)` renders for `m > 0`,
computed exactly over fractions.  The `int` to `double` conversion of `m` is
exact (`|m| < 2^31 < 2^53`) and the division by `1000.0` is correctly rounded
by IEEE 754, so the double equals `m / 1000` rounded to the nearest binary64
(round to nearest, ties to even): its significand is the 53-bit rounding of
`(m / 1000) * 2 ^ (52 - L)` where `L` is the floor base-2 logarithm of
`m / 1000` (all such values are normal: `0.001 ≤ m / 1000 < 2 ^ 21`).  The
`"%.1f"` conversion is correctly rounded as well (glibc), rounding the exact
binary value of that double to one decimal digit, again ties to even. -/
def f64_div1000_tenths (m : Nat) : Nat :=
  if m = 0 then 0
  else
    let L : Int := (log2_fuel 300 (m * 2 ^ 200 / 1000) : Int) - 200
    let pq := scale_pq m 1000 (52 - L)
    let s := round_half_even_nat pq.1 pq.2
    let pq2 := scale_pq (10 * s) 1 (L - 52)
    round_half_even_nat pq2.1 pq2.2

/-- The `printf` rendering `"%.1f"` of `msecs / 1000.0`: sign, then the
tenths value of the magnitude split around the decimal point
(`f64_div1000_tenths` carries the exact binary64 rounding semantics). -/
def format_secs_1 (msecs : Int) : String :=
  let t := f64_div1000_tenths msecs.natAbs
  (cond (msecs < 0) "-" "") ++ toString (t / 10) ++ "." ++ toString (t % 10)

/-- The `printf` padding `"%6u"`: right-aligned in a field of width 6. -/
def format_u6 (n : Nat) : String :=
  let s := toString n
  String.mk (List.replicate (6 - min 6 s.length) ' ') ++ s

/-- One per-entry record of the diagnostic dump:
`"%6u: (%.1f) %s\n"` with the program name, the seconds since `last_used`
(the millisecond difference narrowed to 32-bit `int` as in the source, then
divided by `1000.0` and printed with one decimal), and the description
string of the entry's key. -/
def shader_dump_record (now : Int) (sh : gl_shader) : String :=
  format_u6 sh.program ++ ": ("
    ++ format_secs_1 (int_narrow_32 (timespec_sub_to_msec now sh.last_used))
    ++ ") " ++ create_shader_description_string sh.key ++ "\n"

/-- The separator bar printed around the shader bodies. -/
def dump_bar : String :=
  "-----------------------------------------------------------------------------"

/-- The first `weston_log_subscription_printf` block: the fixed vertex and
fragment shader bodies between bars. -/
def dump_header (vs fs : String) : String :=
  "Vertex shader body:\n" ++ dump_bar ++ "\n" ++ vs ++ "\n"
    ++ "Fragment shader body:\n" ++ dump_bar ++ "\n" ++ fs ++ "\n"
    ++ dump_bar ++ "\n"

/-- The column-header block printed before the per-entry records. -/
def dump_list_header : String :=
  "Cached GLSL programs:\n    id: (used secs ago) description +/-flags\n"

/-- `gl_shader_scope_new_subscription`: the diagnostic dump.  It reads the
presentation clock (`now`, a collaborator input), prints the two fixed
shader bodies, then walks the cache list printing one record per entry while
counting, and ends with the total line.  The output is the list of printed
blocks; the renderer state is threaded through the loop exactly as the C
loop leaves it. -/
def gl_shader_scope_new_subscription (vs fs : String) (now : Int)
    (gr : gl_renderer) : List String × gl_renderer :=
  let r := gr.shader_list.foldl
    (fun (acc : List String × Nat × gl_renderer) sh =>
      (acc.1 ++ [shader_dump_record now sh], acc.2.1 + 1, acc.2.2))
    ([], 0, gr)
  (dump_header vs fs :: dump_list_header :: r.1
     ++ ["Total: " ++ toString r.2.1 ++ " programs.\n"], r.2.2)

/-- The cache's three public operations (spec section 4.1): `get_or_create`,
`dump`, `destroy_all`. -/
inductive cache_op where
  | get : gl_shader_requirements → cache_op
  | dump : Int → cache_op
  | destroyAll : cache_op
deriving DecidableEq, Repr

/-- One step of the cache state machine: apply one public operation. -/
def cache_step (o : GLOracle) (vs fs : String) (op : cache_op)
    (gr : gl_renderer) : gl_renderer :=
  match op with
  | cache_op.get req => (gl_renderer_get_program o vs fs req gr).2
  | cache_op.dump now => (gl_shader_scope_new_subscription vs fs now gr).2
  | cache_op.destroyAll => destroy_all gr

/-- A sequence of public cache operations, applied left to right. -/
def cache_run (o : GLOracle) (vs fs : String) :
    List cache_op → gl_renderer → gl_renderer
  | [], gr => gr
  | op :: tl, gr => cache_run o vs fs tl (cache_step o vs fs op gr)

/-! ### Concrete fixtures for witnesses and counterexamples -/

/-- A driver oracle on which every compile and link succeeds and every
uniform resolves to location 0. -/
def oracle_ok : GLOracle :=
  { compileOk := fun _ _ => true, infoLog := fun _ _ => "",
    linkOk := true, linkLog := "", uniformLoc := fun _ _ => 0 }

/-- A driver oracle on which the vertex stage compiles but the fragment
stage fails with diagnostic "bad fragment". -/
def oracle_frag_fail : GLOracle :=
  { compileOk := fun ty _ => ty == shader_stage.vertex,
    infoLog := fun _ _ => "bad fragment",
    linkOk := true, linkLog := "", uniformLoc := fun _ _ => 0 }

/-- The sample requirements value of the spec scenario:
variant RGBA, green tint off. -/
def req_rgba : gl_shader_requirements :=
  { variant := SHADER_VARIANT_RGBA, green_tint := false }

/-- An empty renderer cache over a fresh driver. -/
def gr_empty : gl_renderer :=
  { shader_list := [], gl := GLState.init }

/-- The entry `gl_shader_create` builds for `req_rgba` on a fresh driver
under `oracle_ok`: stage objects 1 and 2, program 1, all uniforms at 0. -/
def sh_rgba : gl_shader :=
  { key := req_rgba, vertex_shader := 1, fragment_shader := 2, program := 1,
    proj_uniform := 0, tex_uniform0 := 0, tex_uniform1 := 0,
    tex_uniform2 := 0, alpha_uniform := 0, color_uniform := 0,
    last_used := 0 }

/-- The renderer state after the first `get_or_create(req_rgba)` on the
empty cache under `oracle_ok`. -/
def gr_rgba : gl_renderer :=
  (gl_renderer_get_program oracle_ok "VS" "FS" req_rgba gr_empty).2

/-- A second, distinct requirements value for exercising sequences. -/
def req_y_uv : gl_shader_requirements :=
  { variant := SHADER_VARIANT_Y_UV, green_tint := true }

/-- Well-formedness of a driver state: object names handed out so far are
below the next-name counters, and the counters are positive so that a fresh
name is never `GL_NONE`.  Holds for `GLState.init` and is preserved by every
driver call. -/
def GLState.WF (st : GLState) : Prop :=
  0 < st.nextShaderId ∧ 0 < st.nextProgramId
    ∧ (∀ s ∈ st.liveShaders, s < st.nextShaderId)
    ∧ (∀ p ∈ st.livePrograms, p < st.nextProgramId)

/-! ### Helper lemmas -/

lemma requirements_cmp_eq_zero_iff (a b : gl_shader_requirements) :
    gl_shader_requirements_cmp a b = 0 ↔ a = b := by
  revert a b; decide

lemma erase_append_cons {l m : List Nat} {a : Nat} (h : a ∉ l) :
    (l ++ a :: m).erase a = l ++ m := by
  rw [List.erase_append_right _ h, List.erase_cons_head]

lemma erase_append_singleton {l : List Nat} {a : Nat} (h : a ∉ l) :
    (l ++ [a]).erase a = l := by
  rw [erase_append_cons h, List.append_nil]

/-- Characterization of a successful `gl_shader_create`: the returned entry
carries the requested key and is inserted at the head of the cache list. -/
lemma gl_shader_create_some {o : GLOracle} {vs fs : String}
    {req : gl_shader_requirements} {gr : gl_renderer} {sh : gl_shader}
    {gr1 : gl_renderer}
    (h : gl_shader_create o vs fs req gr = (some sh, gr1)) :
    sh.key = req ∧ gr1.shader_list = sh :: gr.shader_list := by
  unfold gl_shader_create at h
  dsimp only at h
  split_ifs at h
  · exact absurd (congrArg Prod.fst h) (by simp)
  · exact absurd (congrArg Prod.fst h) (by simp)
  · injection h with h4 h5
    injection h4 with h6
    subst h6
    subst h5
    exact ⟨rfl, rfl⟩
  · exact absurd (congrArg Prod.fst h) (by simp)

/-- `gl_shader_create` never removes a cached entry: the resulting list is
the old one, possibly with the new entry consed on. -/
lemma gl_shader_create_list (o : GLOracle) (vs fs : String)
    (req : gl_shader_requirements) (gr : gl_renderer) :
    (gl_shader_create o vs fs req gr).2.shader_list = gr.shader_list
      ∨ ∃ sh, (gl_shader_create o vs fs req gr).2.shader_list
          = sh :: gr.shader_list := by
  unfold gl_shader_create
  dsimp only
  split_ifs <;> first | exact Or.inl rfl | exact Or.inr ⟨_, rfl⟩

/-- The dump loop: walking a list appends one record per entry and counts
the entries, leaving the threaded renderer untouched. -/
lemma dump_foldl (now : Int) (l : List gl_shader) :
    ∀ acc : List String × Nat × gl_renderer,
      l.foldl
        (fun (acc : List String × Nat × gl_renderer) sh =>
          (acc.1 ++ [shader_dump_record now sh], acc.2.1 + 1, acc.2.2)) acc
      = (acc.1 ++ l.map (shader_dump_record now), acc.2.1 + l.length,
         acc.2.2) := by
  induction l with
  | nil => intro acc; simp
  | cons sh tl ih =>
      intro acc
      rw [List.foldl_cons, ih]
      simp
      omega

/-- The dump loop leaves the cache state unchanged. -/
lemma dump_state_eq (vs fs : String) (now : Int) (gr : gl_renderer) :
    (gl_shader_scope_new_subscription vs fs now gr).2 = gr := by
  unfold gl_shader_scope_new_subscription
  rw [dump_foldl]

/-- `destroy_all_go` over the cache's own list empties it and deletes one
program per entry. -/
lemma destroy_all_go_spec :
    ∀ (l : List gl_shader) (gr : gl_renderer), gr.shader_list = l →
      (destroy_all_go l gr).shader_list = []
        ∧ (destroy_all_go l gr).gl.programDeleteCount
            = gr.gl.programDeleteCount + l.length := by
  intro l
  induction l with
  | nil => intro gr h; exact ⟨h, rfl⟩
  | cons sh tl ih =>
      intro gr h
      have hstep : (gl_shader_destroy gr sh).shader_list = tl := by
        simp [gl_shader_destroy, h, List.erase_cons_head]
      obtain ⟨h1, h2⟩ := ih (gl_shader_destroy gr sh) hstep
      simp only [destroy_all_go]
      refine ⟨h1, ?_⟩
      rw [h2]
      simp [gl_shader_destroy, glDeleteProgram]
      omega

lemma erase_pair_left (l : List Nat) (a b : Nat) (ha : a ∉ l) :
    (l ++ [a, b]).erase a = l ++ [b] := by
  rw [List.erase_append_right _ ha, List.erase_cons_head]

lemma erase_pair_right (l : List Nat) (a b : Nat) (hb : b ∉ l) (hab : a ≠ b) :
    (l ++ [a, b]).erase b = l ++ [a] := by
  rw [List.erase_append_right _ hb]
  rw [List.erase_cons_tail, List.erase_cons_head]
  simp [hab]

lemma gl_shader_create_path (o : GLOracle) (vs fs : String)
    (req : gl_shader_requirements) (gr : gl_renderer)
    (hwf : GLState.WF gr.gl) :
    (gl_shader_create o vs fs req gr).1 = none
      ∧ (gl_shader_create o vs fs req gr).2.shader_list = gr.shader_list
      ∧ (gl_shader_create o vs fs req gr).2.gl.livePrograms
          = gr.gl.livePrograms
      ∧ ((o.compileOk shader_stage.vertex [vs] = false
          ∧ (gl_shader_create o vs fs req gr).2.gl.liveShaders
            = gr.gl.liveShaders ++ [gr.gl.nextShaderId]
          ∧ (gl_shader_create o vs fs req gr).2.gl.shaderDeleteLog
            = gr.gl.shaderDeleteLog
          ∧ (gl_shader_create o vs fs req gr).2.gl.log
            = gr.gl.log
              ++ ["shader info: " ++ o.infoLog shader_stage.vertex [vs]])
        ∨ (o.compileOk shader_stage.vertex [vs] = true
          ∧ o.compileOk shader_stage.fragment
              ["#version 100\n", create_shader_config_string req, fs] = false
          ∧ (gl_shader_create o vs fs req gr).2.gl.liveShaders
            = gr.gl.liveShaders ++ [gr.gl.nextShaderId + 1]
          ∧ (gl_shader_create o vs fs req gr).2.gl.shaderDeleteLog
            = gr.gl.shaderDeleteLog ++ [gr.gl.nextShaderId]
          ∧ (gl_shader_create o vs fs req gr).2.gl.log
            = gr.gl.log
              ++ ["shader info: " ++ o.infoLog shader_stage.fragment
                    ["#version 100\n", create_shader_config_string req, fs]])
        ∨ (o.compileOk shader_stage.vertex [vs] = true
          ∧ o.compileOk shader_stage.fragment
              ["#version 100\n", create_shader_config_string req, fs] = true
          ∧ o.linkOk = false
          ∧ (gl_shader_create o vs fs req gr).2.gl.liveShaders
            = gr.gl.liveShaders
          ∧ (gl_shader_create o vs fs req gr).2.gl.shaderDeleteLog
            = gr.gl.shaderDeleteLog
              ++ [gr.gl.nextShaderId + 1, gr.gl.nextShaderId]
          ∧ (gl_shader_create o vs fs req gr).2.gl.log
            = gr.gl.log ++ ["link info: " ++ o.linkLog]))
    ∨ (∃ sh, (gl_shader_create o vs fs req gr).1 = some sh
        ∧ sh.vertex_shader = gr.gl.nextShaderId
        ∧ sh.fragment_shader = gr.gl.nextShaderId + 1
        ∧ sh.program = gr.gl.nextProgramId
        ∧ (gl_shader_create o vs fs req gr).2.shader_list
            = sh :: gr.shader_list
        ∧ (gl_shader_create o vs fs req gr).2.gl.liveShaders
            = gr.gl.liveShaders
        ∧ (gl_shader_create o vs fs req gr).2.gl.livePrograms
            = gr.gl.livePrograms ++ [gr.gl.nextProgramId]
        ∧ (gl_shader_create o vs fs req gr).2.gl.shaderDeleteLog
            = gr.gl.shaderDeleteLog
              ++ [gr.gl.nextShaderId, gr.gl.nextShaderId + 1]) := by
  obtain ⟨hn, hp, hls, hlp⟩ := hwf
  have hn0 : ¬(gr.gl.nextShaderId = 0) := by omega
  have hnotin : gr.gl.nextShaderId ∉ gr.gl.liveShaders :=
    fun hm => absurd (hls _ hm) (lt_irrefl _)
  have hnotin1 : gr.gl.nextShaderId + 1 ∉ gr.gl.liveShaders :=
    fun hm => by have := hls _ hm; omega
  have hpnotin : gr.gl.nextProgramId ∉ gr.gl.livePrograms :=
    fun hm => absurd (hlp _ hm) (lt_irrefl _)
  cases hcv : o.compileOk shader_stage.vertex [vs] with
  | false =>
      left
      simp [gl_shader_create, compile_shader, glCreateShader, hcv, GL_NONE]
  | true =>
      cases hcf : o.compileOk shader_stage.fragment
          ["#version 100\n", create_shader_config_string req, fs] with
      | false =>
          left
          simp [gl_shader_create, compile_shader, glCreateShader,
                glDeleteShader, hcv, hcf, GL_NONE, hn0]
          exact erase_pair_left _ _ _ hnotin
      | true =>
          cases hlk : o.linkOk with
          | false =>
              left
              simp [gl_shader_create, compile_shader, glCreateShader,
                    glDeleteShader, glCreateProgram, glDeleteProgram,
                    hcv, hcf, hlk, GL_NONE, hn0]
              refine ⟨erase_append_singleton hpnotin, ?_⟩
              rw [erase_pair_right _ _ _ hnotin1 (by omega),
                  erase_append_singleton hnotin]
          | true =>
              right
              simp [gl_shader_create, compile_shader, glCreateShader,
                    glDeleteShader, glCreateProgram, hcv, hcf, hlk,
                    GL_NONE, hn0]
              rw [erase_pair_left _ _ _ hnotin,
                  erase_append_singleton hnotin1]

/-- `(compile_shader o ty src st).2` always records exactly one submission of
`(ty, src)`, whether or not the compile succeeds. -/
lemma compile_shader_submissions (o : GLOracle) (ty : shader_stage)
    (src : List String) (st : GLState) :
    (compile_shader o ty src st).2.submissions
      = st.submissions ++ [(ty, src)] := by
  unfold compile_shader glCreateShader
  dsimp only
  split_ifs <;> rfl

/-- `GLState.init` is well formed. -/
lemma init_WF : GLState.WF GLState.init := by
  refine ⟨Nat.one_pos, Nat.one_pos, ?_, ?_⟩ <;>
    intro x hx <;> simp [GLState.init] at hx

/-- A lookup that can match a cached entry leaves the cache unchanged. -/
lemma get_program_state_of_match (o : GLOracle) (vs fs : String)
    (req : gl_shader_requirements) (gr2 : gl_renderer)
    (hex : ∃ s ∈ gr2.shader_list, gl_shader_requirements_cmp req s.key = 0) :
    (gl_renderer_get_program o vs fs req gr2).2 = gr2 := by
  unfold gl_renderer_get_program
  cases hfind : gr2.shader_list.find?
      (fun s => gl_shader_requirements_cmp req s.key == 0) with
  | some shf => rfl
  | none =>
      exfalso
      obtain ⟨s, hs, hcmp⟩ := hex
      have hno := List.find?_eq_none.mp hfind s hs
      simp [hcmp] at hno

/-- The hit-path contract of `get_or_create` once an entry for `req` is
cached: the cached entry is returned unchanged, no compile call is made, no
entry is inserted, and no duplicate is inserted in any state holding a
matching entry. -/
def get_program_hit_spec (o : GLOracle) (vs fs : String)
    (req : gl_shader_requirements) (sh : gl_shader) (gr1 : gl_renderer) :
    Prop :=
  gl_renderer_get_program o vs fs req gr1 = (some sh, gr1)
  ∧ (gl_renderer_get_program o vs fs req gr1).2.gl.compileCount
      = gr1.gl.compileCount
  ∧ (gl_renderer_get_program o vs fs req gr1).2.shader_list
      = gr1.shader_list
  ∧ ∀ gr2 : gl_renderer,
      (∃ s ∈ gr2.shader_list, gl_shader_requirements_cmp req s.key = 0) →
        (gl_renderer_get_program o vs fs req gr2).2.shader_list
          = gr2.shader_list

/-- **C1**: after `get_or_create(R)` has succeeded once, a second call with
the same `R` returns the identical cached entry with the cache state
untouched — in particular no second driver compile call happens and no
duplicate entry for `R` is inserted; moreover in any cache state holding an
entry matching `R`, `get_or_create(R)` inserts nothing. -/
theorem get_or_create_cached_entry_unique (o : GLOracle) (vs fs : String)
    (req : gl_shader_requirements) (gr : gl_renderer) (sh : gl_shader)
    (gr1 : gl_renderer)
    (h : gl_renderer_get_program o vs fs req gr = (some sh, gr1)) :
    get_program_hit_spec o vs fs req sh gr1 := by
  have hsecond : gl_renderer_get_program o vs fs req gr1 = (some sh, gr1) := by
    unfold gl_renderer_get_program at h ⊢
    cases hfind : gr.shader_list.find?
        (fun s => gl_shader_requirements_cmp req s.key == 0) with
    | some shf =>
        rw [hfind] at h
        injection h with h4 h5
        injection h4 with h6
        subst h6
        subst h5
        rw [hfind]
    | none =>
        rw [hfind] at h
        obtain ⟨hkey, hlist⟩ := gl_shader_create_some h
        have hpred : (gl_shader_requirements_cmp req sh.key == 0) = true := by
          simp [hkey, requirements_cmp_eq_zero_iff]
        have hfind2 : List.find?
            (fun s => gl_shader_requirements_cmp req s.key == 0)
            (sh :: gr.shader_list) = some sh := by
          simp [List.find?, hpred]
        rw [hlist, hfind2]
  refine ⟨hsecond, ?_, ?_, ?_⟩
  · rw [hsecond]
  · rw [hsecond]
  · intro gr2 hex
    rw [get_program_state_of_match o vs fs req gr2 hex]

/-- **C1** witness: concrete second call after a first successful
`get_or_create(req_rgba)` on the empty cache. -/
theorem get_or_create_cached_entry_unique_witness :
    get_program_hit_spec oracle_ok "VS" "FS" req_rgba sh_rgba gr_rgba :=
  get_or_create_cached_entry_unique oracle_ok "VS" "FS" req_rgba gr_empty
    sh_rgba gr_rgba (by rfl)

/-- **C2** counterexample: with a driver failing the fragment-stage compile,
`gl_shader_create` on a fresh driver returns failure but leaves the
fragment-stage shader object (name 2) allocated: `compile_shader` returns
`GL_NONE` without deleting the object it created, so not every driver
resource successfully allocated earlier in the attempt is released. -/
theorem create_failure_leaks_failed_stage_object :
    (gl_shader_create oracle_frag_fail "VS" "FS" req_rgba gr_empty).1 = none
    ∧ (gl_shader_create oracle_frag_fail "VS" "FS" req_rgba
        gr_empty).2.gl.liveShaders = [2]
    ∧ (gl_shader_create oracle_frag_fail "VS" "FS" req_rgba
        gr_empty).2.gl.liveShaders ≠ gr_empty.gl.liveShaders := by
  refine ⟨rfl, rfl, ?_⟩
  decide

/-- The failure contract `gl_shader_create` actually satisfies, case-tied to
the stage that failed.  The vertex stage's shader object is
`gr.gl.nextShaderId` (the first object the attempt creates) and the fragment
stage's is `gr.gl.nextShaderId + 1`, so the exact `liveShaders` and
`shaderDeleteLog` values below say precisely which objects were released and
which one leaked: on a vertex compile failure nothing compiled, nothing is
deleted and the vertex object leaks; on a fragment compile failure the
compiled vertex object is deleted exactly once (and is not live) and the
fragment object leaks; on a link failure both compiled stage objects are
deleted (fragment then vertex) and neither is live — nothing leaks.  In
every case the logged diagnostic is the failing stage's, the cache list is
unchanged and the program object set is restored. -/
def create_failure_spec (o : GLOracle) (vs fs : String)
    (req : gl_shader_requirements) (gr : gl_renderer) : Prop :=
  (gl_shader_create o vs fs req gr).1 = none →
    (gl_shader_create o vs fs req gr).2.shader_list = gr.shader_list
    ∧ (gl_shader_create o vs fs req gr).2.gl.livePrograms = gr.gl.livePrograms
    ∧ ((o.compileOk shader_stage.vertex [vs] = false
        ∧ (gl_shader_create o vs fs req gr).2.gl.liveShaders
            = gr.gl.liveShaders ++ [gr.gl.nextShaderId]
        ∧ (gl_shader_create o vs fs req gr).2.gl.shaderDeleteLog
            = gr.gl.shaderDeleteLog
        ∧ (gl_shader_create o vs fs req gr).2.gl.log
            = gr.gl.log
              ++ ["shader info: " ++ o.infoLog shader_stage.vertex [vs]])
      ∨ (o.compileOk shader_stage.vertex [vs] = true
        ∧ o.compileOk shader_stage.fragment
            ["#version 100\n", create_shader_config_string req, fs] = false
        ∧ (gl_shader_create o vs fs req gr).2.gl.liveShaders
            = gr.gl.liveShaders ++ [gr.gl.nextShaderId + 1]
        ∧ gr.gl.nextShaderId
            ∉ (gl_shader_create o vs fs req gr).2.gl.liveShaders
        ∧ (gl_shader_create o vs fs req gr).2.gl.shaderDeleteLog
            = gr.gl.shaderDeleteLog ++ [gr.gl.nextShaderId]
        ∧ (gl_shader_create o vs fs req gr).2.gl.log
            = gr.gl.log
              ++ ["shader info: " ++ o.infoLog shader_stage.fragment
                    ["#version 100\n", create_shader_config_string req, fs]])
      ∨ (o.compileOk shader_stage.vertex [vs] = true
        ∧ o.compileOk shader_stage.fragment
            ["#version 100\n", create_shader_config_string req, fs] = true
        ∧ o.linkOk = false
        ∧ (gl_shader_create o vs fs req gr).2.gl.liveShaders
            = gr.gl.liveShaders
        ∧ gr.gl.nextShaderId
            ∉ (gl_shader_create o vs fs req gr).2.gl.liveShaders
        ∧ gr.gl.nextShaderId + 1
            ∉ (gl_shader_create o vs fs req gr).2.gl.liveShaders
        ∧ (gl_shader_create o vs fs req gr).2.gl.shaderDeleteLog
            = gr.gl.shaderDeleteLog
              ++ [gr.gl.nextShaderId + 1, gr.gl.nextShaderId]
        ∧ (gl_shader_create o vs fs req gr).2.gl.log
            = gr.gl.log ++ ["link info: " ++ o.linkLog]))

/-- **C2** (amended): on a well-formed driver state, every failing creation
attempt aborts with the failing stage's driver diagnostic logged, inserts no
cache entry (cache list unchanged), restores the program object set, and
releases — exactly once — every stage shader object that compiled
successfully; the shader object of the stage whose compilation failed is not
released (exactly that one object leaks on a compile failure, and nothing
leaks on a link failure). -/
theorem create_failure_releases_compiled_stages (o : GLOracle)
    (vs fs : String) (req : gl_shader_requirements) (gr : gl_renderer)
    (hwf : GLState.WF gr.gl) : create_failure_spec o vs fs req gr := by
  obtain ⟨hn, hp, hls, hlp⟩ := hwf
  have hnotin : gr.gl.nextShaderId ∉ gr.gl.liveShaders :=
    fun hm => absurd (hls _ hm) (lt_irrefl _)
  have hnotin1 : gr.gl.nextShaderId + 1 ∉ gr.gl.liveShaders :=
    fun hm => by have := hls _ hm; omega
  intro hnone
  rcases gl_shader_create_path o vs fs req gr ⟨hn, hp, hls, hlp⟩ with
    ⟨h1, h2, h3, hcase⟩ | ⟨sh, hsome, _⟩
  · refine ⟨h2, h3, ?_⟩
    rcases hcase with ⟨ho, ha, hb, hc⟩ | ⟨ho1, ho2, ha, hb, hc⟩
      | ⟨ho1, ho2, ho3, ha, hb, hc⟩
    · exact Or.inl ⟨ho, ha, hb, hc⟩
    · refine Or.inr (Or.inl ⟨ho1, ho2, ha, ?_, hb, hc⟩)
      rw [ha]
      simp [hnotin]
    · refine Or.inr (Or.inr ⟨ho1, ho2, ho3, ha, ?_, ?_, hb, hc⟩) <;> rw [ha]
      · exact hnotin
      · exact hnotin1
  · rw [hsome] at hnone
    exact absurd hnone (by simp)

/-- **C2** (amended) witness: the fragment-compile-failure attempt on the
fresh empty cache. -/
theorem create_failure_releases_compiled_stages_witness :
    GLState.WF gr_empty.gl
    ∧ create_failure_spec oracle_frag_fail "VS" "FS" req_rgba gr_empty :=
  ⟨init_WF,
   create_failure_releases_compiled_stages oracle_frag_fail "VS" "FS"
     req_rgba gr_empty init_WF⟩

/-- **C3**: `describe` (`create_shader_description_string`) is a pure total
function (determinism is by construction in the embedding), its value is
always the variant name, a space, then a plus or minus sign and "green"; the spec scenario value
`{RGBA, false}` renders as `"SHADER_VARIANT_RGBA -green"`, and the 18
possible inputs give 18 pairwise distinct strings (injectivity). -/
theorem describe_total_deterministic_injective :
    (∀ r : gl_shader_requirements,
        create_shader_description_string r
          = gl_shader_texture_variant_to_string r.variant ++ " "
            ++ (cond r.green_tint "+" "-") ++ "green")
    ∧ create_shader_description_string
        { variant := SHADER_VARIANT_RGBA, green_tint := false }
        = "SHADER_VARIANT_RGBA -green"
    ∧ ∀ r1 r2 : gl_shader_requirements,
        create_shader_description_string r1
            = create_shader_description_string r2 → r1 = r2 := by
  refine ⟨fun r => rfl, by decide, by decide⟩

/-- **C4**: on a miss (`gl_shader_create`), the only driver submissions are
the fixed vertex source alone, and — when the vertex stage compiled — the
fragment source as exactly the version pragma, the generated `#define` block
(one `DEF_GREEN_TINT` line, one `DEF_VARIANT` line) and the fixed fragment
body, in that order. -/
theorem create_submits_fixed_sources (o : GLOracle) (vs fs : String)
    (req : gl_shader_requirements) (gr : gl_renderer) :
    ((gl_shader_create o vs fs req gr).2.gl.submissions
        = gr.gl.submissions ++ [(shader_stage.vertex, [vs])]
      ∨ (gl_shader_create o vs fs req gr).2.gl.submissions
        = gr.gl.submissions
            ++ [(shader_stage.vertex, [vs]),
                (shader_stage.fragment,
                 ["#version 100\n", create_shader_config_string req, fs])])
    ∧ create_shader_config_string req
        = "#define DEF_GREEN_TINT " ++ (cond req.green_tint "true" "false")
          ++ "\n" ++ "#define DEF_VARIANT "
          ++ gl_shader_texture_variant_to_string req.variant ++ "\n" := by
  refine ⟨?_, rfl⟩
  unfold gl_shader_create
  dsimp only
  split_ifs <;>
    simp [compile_shader_submissions, glDeleteShader, glCreateProgram,
          glDeleteProgram]

/-- **C5**: cache-key comparison (`memcmp` over the key bytes) returns 0
exactly when the two requirement values agree on both fields. -/
theorem requirements_cmp_exact_structural_equality
    (a b : gl_shader_requirements) :
    gl_shader_requirements_cmp a b = 0 ↔ a = b :=
  requirements_cmp_eq_zero_iff a b

/-- **C6**: `destroy_all` on a cache of N entries issues exactly N driver
program deletions and empties the store; a dump performed afterwards has no
per-entry records and ends with the `"Total: 0 programs."` line. -/
theorem destroy_all_deletes_each_and_empties (vs fs : String) (now : Int)
    (gr : gl_renderer) :
    (destroy_all gr).shader_list = []
    ∧ (destroy_all gr).gl.programDeleteCount
        = gr.gl.programDeleteCount + gr.shader_list.length
    ∧ (gl_shader_scope_new_subscription vs fs now (destroy_all gr)).1
        = [dump_header vs fs, dump_list_header, "Total: 0 programs.\n"] := by
  obtain ⟨h1, h2⟩ := destroy_all_go_spec gr.shader_list gr rfl
  have h1x : (destroy_all gr).shader_list = [] := h1
  refine ⟨h1x, h2, ?_⟩
  unfold gl_shader_scope_new_subscription
  rw [dump_foldl, h1x]
  have hs : "Total: " ++ toString (0 : Nat) ++ " programs.\n"
      = "Total: 0 programs.\n" := by decide
  simp
  exact hs

/-- **C7**: the dump report is the fixed vertex and fragment bodies, then
exactly one record per cached entry, then the total line; each record is the
program name (width-6 padded), the seconds elapsed since the entry's
`last_used` at dump time, and the description string of the entry's key. -/
theorem dump_one_record_per_entry (vs fs : String) (now : Int)
    (gr : gl_renderer) :
    (gl_shader_scope_new_subscription vs fs now gr).1
      = dump_header vs fs :: dump_list_header ::
          (gr.shader_list.map (shader_dump_record now)
            ++ ["Total: " ++ toString gr.shader_list.length
                  ++ " programs.\n"])
    ∧ ∀ sh : gl_shader, shader_dump_record now sh
        = format_u6 sh.program ++ ": ("
          ++ format_secs_1
              (int_narrow_32 (timespec_sub_to_msec now sh.last_used))
          ++ ") " ++ create_shader_description_string sh.key ++ "\n" := by
  refine ⟨?_, fun sh => rfl⟩
  unfold gl_shader_scope_new_subscription
  rw [dump_foldl]
  simp

/-- **C8**: the dump is purely observational — it leaves the whole cache
state (entry list and driver state, hence every entry field) unchanged. -/
theorem dump_leaves_cache_unchanged (vs fs : String) (now : Int)
    (gr : gl_renderer) :
    (gl_shader_scope_new_subscription vs fs now gr).2 = gr :=
  dump_state_eq vs fs now gr

/-- A public operation other than `destroy_all` never removes a cached
entry. -/
lemma cache_step_preserves_mem (o : GLOracle) (vs fs : String)
    (op : cache_op) (hop : op ≠ cache_op.destroyAll) {sh : gl_shader}
    {gr : gl_renderer} (hmem : sh ∈ gr.shader_list) :
    sh ∈ (cache_step o vs fs op gr).shader_list := by
  cases op with
  | get req =>
      dsimp only [cache_step]
      unfold gl_renderer_get_program
      cases hfind : gr.shader_list.find?
          (fun s => gl_shader_requirements_cmp req s.key == 0) with
      | some shf => exact hmem
      | none =>
          rcases gl_shader_create_list o vs fs req gr with h | ⟨sh2, h⟩
          · rw [h]; exact hmem
          · rw [h]; exact List.mem_cons_of_mem _ hmem
  | dump now =>
      dsimp only [cache_step]
      rw [dump_state_eq]
      exact hmem
  | destroyAll => exact absurd rfl hop

/-- **C9**: over any sequence of public cache operations containing no
`destroy_all`, every entry present at the start is still present at the
end — no operation other than `destroy_all` removes an entry. -/
theorem no_single_entry_eviction (o : GLOracle) (vs fs : String)
    (ops : List cache_op) (gr : gl_renderer) (sh : gl_shader)
    (hops : cache_op.destroyAll ∉ ops) (hmem : sh ∈ gr.shader_list) :
    sh ∈ (cache_run o vs fs ops gr).shader_list := by
  induction ops generalizing gr with
  | nil => exact hmem
  | cons op tl ih =>
      simp only [List.mem_cons, not_or] at hops
      simp only [cache_run]
      exact ih _ hops.2
        (cache_step_preserves_mem o vs fs op (fun he => hops.1 he.symm) hmem)

/-- **C9** witness: the entry created for `req_rgba` survives a later
`get_or_create` for a different key and a dump. -/
theorem no_single_entry_eviction_witness :
    cache_op.destroyAll ∉ [cache_op.get req_y_uv, cache_op.dump 7]
    ∧ sh_rgba ∈ gr_rgba.shader_list
    ∧ sh_rgba ∈ (cache_run oracle_ok "VS" "FS"
        [cache_op.get req_y_uv, cache_op.dump 7] gr_rgba).shader_list :=
  ⟨by decide, by decide,
   no_single_entry_eviction oracle_ok "VS" "FS"
     [cache_op.get req_y_uv, cache_op.dump 7] gr_rgba sh_rgba
     (by decide) (by decide)⟩

/-- The per-attempt stage-object deletion discipline of `gl_shader_create`:
on success the two stage objects (vertex, then fragment) are each deleted
exactly once, the returned entry's stage handles name already-deleted
objects, and only the linked program object is still live.  On failure the
clause is tied to the failing stage (the vertex stage's object is
`gr.gl.nextShaderId`, the fragment stage's is `gr.gl.nextShaderId + 1`): a
vertex compile failure successfully creates no stage object and deletes
nothing; a fragment compile failure deletes exactly the successfully
compiled vertex object, once, and that object is no longer live; a link
failure deletes exactly the two successfully compiled stage objects
(fragment, then vertex), each once, and neither is live. -/
def create_delete_discipline (o : GLOracle) (vs fs : String)
    (req : gl_shader_requirements) (gr : gl_renderer) : Prop :=
  (∀ sh, (gl_shader_create o vs fs req gr).1 = some sh →
      (gl_shader_create o vs fs req gr).2.gl.shaderDeleteLog
        = gr.gl.shaderDeleteLog ++ [sh.vertex_shader, sh.fragment_shader]
      ∧ sh.vertex_shader ≠ sh.fragment_shader
      ∧ sh.vertex_shader ∉ (gl_shader_create o vs fs req gr).2.gl.liveShaders
      ∧ sh.fragment_shader
          ∉ (gl_shader_create o vs fs req gr).2.gl.liveShaders
      ∧ sh.program ∈ (gl_shader_create o vs fs req gr).2.gl.livePrograms)
  ∧ ((gl_shader_create o vs fs req gr).1 = none →
      ((o.compileOk shader_stage.vertex [vs] = false
        ∧ (gl_shader_create o vs fs req gr).2.gl.shaderDeleteLog
            = gr.gl.shaderDeleteLog)
       ∨ (o.compileOk shader_stage.vertex [vs] = true
        ∧ o.compileOk shader_stage.fragment
            ["#version 100\n", create_shader_config_string req, fs] = false
        ∧ (gl_shader_create o vs fs req gr).2.gl.shaderDeleteLog
            = gr.gl.shaderDeleteLog ++ [gr.gl.nextShaderId]
        ∧ gr.gl.nextShaderId
            ∉ (gl_shader_create o vs fs req gr).2.gl.liveShaders)
       ∨ (o.compileOk shader_stage.vertex [vs] = true
        ∧ o.compileOk shader_stage.fragment
            ["#version 100\n", create_shader_config_string req, fs] = true
        ∧ o.linkOk = false
        ∧ (gl_shader_create o vs fs req gr).2.gl.shaderDeleteLog
            = gr.gl.shaderDeleteLog
              ++ [gr.gl.nextShaderId + 1, gr.gl.nextShaderId]
        ∧ gr.gl.nextShaderId
            ∉ (gl_shader_create o vs fs req gr).2.gl.liveShaders
        ∧ gr.gl.nextShaderId + 1
            ∉ (gl_shader_create o vs fs req gr).2.gl.liveShaders)))

/-- **C10**: on a well-formed driver state, every stage shader object whose
compile succeeded during a `gl_shader_create` call is deleted exactly once
before the call returns, on every exit path; on success both stage objects
are deleted after the link, the returned entry's `vertex_shader` and
`fragment_shader` fields refer to already-deleted objects, and only the
program object remains live. -/
theorem create_deletes_stage_shaders_once (o : GLOracle) (vs fs : String)
    (req : gl_shader_requirements) (gr : gl_renderer)
    (hwf : GLState.WF gr.gl) : create_delete_discipline o vs fs req gr := by
  obtain ⟨hn, hp, hls, hlp⟩ := hwf
  have hnotin : gr.gl.nextShaderId ∉ gr.gl.liveShaders :=
    fun hm => absurd (hls _ hm) (lt_irrefl _)
  have hnotin1 : gr.gl.nextShaderId + 1 ∉ gr.gl.liveShaders :=
    fun hm => by have := hls _ hm; omega
  rcases gl_shader_create_path o vs fs req gr ⟨hn, hp, hls, hlp⟩ with
    ⟨hnone, _, _, hcase⟩ | ⟨sh, hsome, hv, hf, hpm, _, hlive, hlp2, hsdl⟩
  · constructor
    · intro sh0 hsh0
      rw [hnone] at hsh0
      exact absurd hsh0 (by simp)
    · intro _
      rcases hcase with ⟨ho, ha, hb, _⟩ | ⟨ho1, ho2, ha, hb, _⟩
        | ⟨ho1, ho2, ho3, ha, hb, _⟩
      · exact Or.inl ⟨ho, hb⟩
      · refine Or.inr (Or.inl ⟨ho1, ho2, hb, ?_⟩)
        rw [ha]
        simp [hnotin]
      · refine Or.inr (Or.inr ⟨ho1, ho2, ho3, hb, ?_, ?_⟩) <;> rw [ha]
        · exact hnotin
        · exact hnotin1
  · constructor
    · intro sh0 hsh0
      rw [hsome] at hsh0
      injection hsh0 with he
      subst he
      refine ⟨?_, ?_, ?_, ?_, ?_⟩
      · rw [hsdl, hv, hf]
      · rw [hv, hf]; omega
      · rw [hlive, hv]; exact hnotin
      · rw [hlive, hf]; exact hnotin1
      · rw [hlp2, hpm]
        exact List.mem_append_right _ (List.mem_singleton_self _)
    · intro hnone
      rw [hsome] at hnone
      exact absurd hnone (by simp)

/-- **C10** witness: the successful creation for `req_rgba` on the fresh
empty cache. -/
theorem create_deletes_stage_shaders_once_witness :
    GLState.WF gr_empty.gl
    ∧ create_delete_discipline oracle_ok "VS" "FS" req_rgba gr_empty :=
  ⟨init_WF,
   create_deletes_stage_shaders_once oracle_ok "VS" "FS" req_rgba gr_empty
     init_WF⟩
